import Mathlib

/-!
Verification of the solana-collateral-vault repository.

The on-chain program (`programs/collateral-vault/src/lib.rs`) is modelled in
namespace `OnChain`: `u64` balances become `Nat` with explicit `2 ^ 64`
bounds at every `checked_add` / `checked_sub`, public keys become opaque
`Nat` identifiers, and each Anchor instruction handler becomes an
`Option`-valued function (`none` = the instruction aborts, leaving every
account unchanged, exactly as a failed Solana transaction does).

The off-chain service (`src/src/*.rs`) is modelled in namespace `OffChain`:
Postgres rows become structures, `i64` columns become `Int`, each fallible
operation returns `Except`, and the coordinator's interactions with the
database / RPC environment are abstracted by a record of step outcomes
(`CpiEnv`) threaded through a faithful transcription of the control flow.
-/

namespace OnChain

/-- `u64` checked addition: `a.checked_add b` in Rust. -/
def checkedAdd (a b : Nat) : Option Nat :=
  if a + b < 2 ^ 64 then some (a + b) else none

/-- `u64` checked subtraction: `a.checked_sub b` in Rust. -/
def checkedSub (a b : Nat) : Option Nat :=
  if b ≤ a then some (a - b) else none

/-- The on-chain `Vault` account (`lib.rs`, `struct Vault`).  Public keys are
opaque `Nat` identifiers; `u64` balances are `Nat`; `i64` timestamp is `Int`. -/
structure Vault where
  user : Nat
  token_account : Nat
  bump : Nat
  total_balance : Nat
  locked_balance : Nat
  available_balance : Nat
  last_updated : Int
  is_active : Bool
  authority : Nat
deriving DecidableEq, Repr

/-- `initialize_vault`: sets all three balances to 0, activates the vault and
records the authority (`lib.rs` lines 18-40). -/
def initVault (user token_account bump : Nat) (authority : Nat) (now : Int) : Vault :=
  { user := user
    token_account := token_account
    bump := bump
    total_balance := 0
    locked_balance := 0
    available_balance := 0
    last_updated := now
    is_active := true
    authority := authority }

/-- `deposit` (`lib.rs` lines 49-84).  The `Deposit` accounts context requires
`has_one = user` (the signer is the vault owner) and `vault.is_active`; the
handler then requires `amount > 0` and `is_active`, and updates
`total_balance` and `available_balance` with checked additions. -/
def deposit (v : Vault) (amount : Nat) (signer : Nat) (now : Int) : Option Vault :=
  if signer ≠ v.user then none
  else if ¬ v.is_active then none
  else if ¬ amount > 0 then none
  else do
    let t ← checkedAdd v.total_balance amount
    let av ← checkedAdd v.available_balance amount
    some { v with total_balance := t, available_balance := av, last_updated := now }

/-- `withdraw` (`lib.rs` lines 93-140).  Requires the owner's signature
(`has_one = user`), an active vault, `amount > 0`, and
`available_balance ≥ amount`; updates both balances with checked subtractions. -/
def withdraw (v : Vault) (amount : Nat) (signer : Nat) (now : Int) : Option Vault :=
  if signer ≠ v.user then none
  else if ¬ v.is_active then none
  else if ¬ amount > 0 then none
  else if ¬ v.available_balance ≥ amount then none
  else do
    let t ← checkedSub v.total_balance amount
    let av ← checkedSub v.available_balance amount
    some { v with total_balance := t, available_balance := av, last_updated := now }

/-- `lock_collateral` (`lib.rs` lines 146-177).  Requires `amount > 0`, an
active vault, the signer to equal the stored `authority`, and
`available_balance ≥ amount`; moves `amount` from available to locked. -/
def lockCollateral (v : Vault) (amount : Nat) (signer : Nat) (now : Int) : Option Vault :=
  if ¬ amount > 0 then none
  else if ¬ v.is_active then none
  else if signer ≠ v.authority then none
  else if ¬ v.available_balance ≥ amount then none
  else do
    let av ← checkedSub v.available_balance amount
    let lk ← checkedAdd v.locked_balance amount
    some { v with available_balance := av, locked_balance := lk, last_updated := now }

/-- `unlock_collateral` (`lib.rs` lines 183-214).  Requires `amount > 0`, an
active vault, the signer to equal the stored `authority`, and
`locked_balance ≥ amount`; moves `amount` from locked back to available. -/
def unlockCollateral (v : Vault) (amount : Nat) (signer : Nat) (now : Int) : Option Vault :=
  if ¬ amount > 0 then none
  else if ¬ v.is_active then none
  else if signer ≠ v.authority then none
  else if ¬ v.locked_balance ≥ amount then none
  else do
    let lk ← checkedSub v.locked_balance amount
    let av ← checkedAdd v.available_balance amount
    some { v with locked_balance := lk, available_balance := av, last_updated := now }

/-- `transfer_collateral` (`lib.rs` lines 221-281).  Requires `amount > 0`,
both vaults active, the signer to equal the SOURCE vault's `authority`
(the destination's `authority` is never read), and
`source.locked_balance ≥ amount`.  Subtracts `amount` from the source's
locked and total balances and adds it to the destination's total and
available balances, all with checked arithmetic. -/
def transferCollateral (src dst : Vault) (amount : Nat) (signer : Nat) (now : Int) :
    Option (Vault × Vault) :=
  if ¬ amount > 0 then none
  else if ¬ src.is_active then none
  else if ¬ dst.is_active then none
  else if signer ≠ src.authority then none
  else if ¬ src.locked_balance ≥ amount then none
  else do
    let slk ← checkedSub src.locked_balance amount
    let st ← checkedSub src.total_balance amount
    let dt ← checkedAdd dst.total_balance amount
    let dav ← checkedAdd dst.available_balance amount
    some ({ src with locked_balance := slk, total_balance := st, last_updated := now },
          { dst with total_balance := dt, available_balance := dav, last_updated := now })

/-- The balance invariant checked by `Vault::validate_invariant`
(`lib.rs` lines 302-307): `total = locked + available`. -/
def balInv (v : Vault) : Prop :=
  v.total_balance = v.locked_balance + v.available_balance

instance (v : Vault) : Decidable (balInv v) := by
  unfold balInv; infer_instance

/-- Vault states reachable by any sequence of successful on-chain
instructions starting from `initialize_vault`. -/
inductive ReachableVault : Vault → Prop where
  | init (user token_account bump authority : Nat) (now : Int) :
      ReachableVault (initVault user token_account bump authority now)
  | dep {v : Vault} (amount signer : Nat) (now : Int) {v' : Vault} :
      ReachableVault v → deposit v amount signer now = some v' → ReachableVault v'
  | wd {v : Vault} (amount signer : Nat) (now : Int) {v' : Vault} :
      ReachableVault v → withdraw v amount signer now = some v' → ReachableVault v'
  | lk {v : Vault} (amount signer : Nat) (now : Int) {v' : Vault} :
      ReachableVault v → lockCollateral v amount signer now = some v' → ReachableVault v'
  | ulk {v : Vault} (amount signer : Nat) (now : Int) {v' : Vault} :
      ReachableVault v → unlockCollateral v amount signer now = some v' → ReachableVault v'
  | xferSrc {s d : Vault} (amount signer : Nat) (now : Int) {s' d' : Vault} :
      ReachableVault s → ReachableVault d →
      transferCollateral s d amount signer now = some (s', d') → ReachableVault s'
  | xferDst {s d : Vault} (amount signer : Nat) (now : Int) {s' d' : Vault} :
      ReachableVault s → ReachableVault d →
      transferCollateral s d amount signer now = some (s', d') → ReachableVault d'

lemma checkedAdd_some {a b c : Nat} (h : checkedAdd a b = some c) :
    c = a + b ∧ a + b < 2 ^ 64 := by
  unfold checkedAdd at h
  split at h
  · exact ⟨(Option.some.injEq _ _ ▸ h).symm, by assumption⟩
  · cases h

lemma checkedSub_some {a b c : Nat} (h : checkedSub a b = some c) :
    c = a - b ∧ b ≤ a := by
  unfold checkedSub at h
  split at h
  · exact ⟨(Option.some.injEq _ _ ▸ h).symm, by assumption⟩
  · cases h

lemma deposit_inv {v v' : Vault} {amount signer : Nat} {now : Int}
    (h : deposit v amount signer now = some v') (hv : balInv v) : balInv v' := by
  unfold deposit at h
  split at h; · cases h
  split at h; · cases h
  split at h; · cases h
  cases ht : checkedAdd v.total_balance amount with
  | none => rw [ht] at h; cases h
  | some t =>
    cases ha : checkedAdd v.available_balance amount with
    | none => rw [ht, ha] at h; cases h
    | some av =>
      rw [ht, ha] at h
      simp only [Option.bind_eq_bind, Option.some_bind, Option.some.injEq] at h
      obtain ⟨rfl, -⟩ := checkedAdd_some ht
      obtain ⟨rfl, -⟩ := checkedAdd_some ha
      subst h
      unfold balInv at *
      dsimp only
      omega

lemma withdraw_inv {v v' : Vault} {amount signer : Nat} {now : Int}
    (h : withdraw v amount signer now = some v') (hv : balInv v) : balInv v' := by
  unfold withdraw at h
  split at h; · cases h
  split at h; · cases h
  split at h; · cases h
  split at h; · cases h
  cases ht : checkedSub v.total_balance amount with
  | none => rw [ht] at h; cases h
  | some t =>
    cases ha : checkedSub v.available_balance amount with
    | none => rw [ht, ha] at h; cases h
    | some av =>
      rw [ht, ha] at h
      simp only [Option.bind_eq_bind, Option.some_bind, Option.some.injEq] at h
      obtain ⟨rfl, hta⟩ := checkedSub_some ht
      obtain ⟨rfl, haa⟩ := checkedSub_some ha
      subst h
      unfold balInv at *
      dsimp only
      omega

lemma lock_inv {v v' : Vault} {amount signer : Nat} {now : Int}
    (h : lockCollateral v amount signer now = some v') (hv : balInv v) : balInv v' := by
  unfold lockCollateral at h
  split at h; · cases h
  split at h; · cases h
  split at h; · cases h
  split at h; · cases h
  cases ha : checkedSub v.available_balance amount with
  | none => rw [ha] at h; cases h
  | some av =>
    cases hl : checkedAdd v.locked_balance amount with
    | none => rw [ha, hl] at h; cases h
    | some lk =>
      rw [ha, hl] at h
      simp only [Option.bind_eq_bind, Option.some_bind, Option.some.injEq] at h
      obtain ⟨rfl, haa⟩ := checkedSub_some ha
      obtain ⟨rfl, -⟩ := checkedAdd_some hl
      subst h
      unfold balInv at *
      dsimp only
      omega

lemma unlock_inv {v v' : Vault} {amount signer : Nat} {now : Int}
    (h : unlockCollateral v amount signer now = some v') (hv : balInv v) : balInv v' := by
  unfold unlockCollateral at h
  split at h; · cases h
  split at h; · cases h
  split at h; · cases h
  split at h; · cases h
  cases hl : checkedSub v.locked_balance amount with
  | none => rw [hl] at h; cases h
  | some lk =>
    cases ha : checkedAdd v.available_balance amount with
    | none => rw [hl, ha] at h; cases h
    | some av =>
      rw [hl, ha] at h
      simp only [Option.bind_eq_bind, Option.some_bind, Option.some.injEq] at h
      obtain ⟨rfl, hla⟩ := checkedSub_some hl
      obtain ⟨rfl, -⟩ := checkedAdd_some ha
      subst h
      unfold balInv at *
      dsimp only
      omega

lemma transfer_inv {s d s' d' : Vault} {amount signer : Nat} {now : Int}
    (h : transferCollateral s d amount signer now = some (s', d'))
    (hs : balInv s) (hd : balInv d) : balInv s' ∧ balInv d' := by
  unfold transferCollateral at h
  split at h; · cases h
  split at h; · cases h
  split at h; · cases h
  split at h; · cases h
  split at h; · cases h
  cases hsl : checkedSub s.locked_balance amount with
  | none => rw [hsl] at h; cases h
  | some slk =>
    cases hst : checkedSub s.total_balance amount with
    | none => rw [hsl, hst] at h; cases h
    | some st =>
      cases hdt : checkedAdd d.total_balance amount with
      | none => rw [hsl, hst, hdt] at h; cases h
      | some dt =>
        cases hda : checkedAdd d.available_balance amount with
        | none => rw [hsl, hst, hdt, hda] at h; cases h
        | some dav =>
          rw [hsl, hst, hdt, hda] at h
          simp only [Option.bind_eq_bind, Option.some_bind, Option.some.injEq, Prod.mk.injEq] at h
          obtain ⟨hs', hd'⟩ := h
          obtain ⟨rfl, hsla⟩ := checkedSub_some hsl
          obtain ⟨rfl, hsta⟩ := checkedSub_some hst
          obtain ⟨rfl, -⟩ := checkedAdd_some hdt
          obtain ⟨rfl, -⟩ := checkedAdd_some hda
          subst hs'; subst hd'
          rename_i hposn hsa hda2 hauth hlk
          unfold balInv at *
          constructor
          · simp only []
            omega
          · simp only []
            omega

lemma checkedAdd_eq {a b : Nat} (h : a + b < 2 ^ 64) : checkedAdd a b = some (a + b) := by
  unfold checkedAdd; rw [if_pos h]

lemma checkedSub_eq {a b : Nat} (h : b ≤ a) : checkedSub a b = some (a - b) := by
  unfold checkedSub; rw [if_pos h]

lemma deposit_some_elim {v v' : Vault} {a s : Nat} {now : Int}
    (h : deposit v a s now = some v') :
    s = v.user ∧ v.is_active = true ∧ 0 < a ∧
      v.total_balance + a < 2 ^ 64 ∧ v.available_balance + a < 2 ^ 64 ∧
      v' = { v with total_balance := v.total_balance + a,
                    available_balance := v.available_balance + a, last_updated := now } := by
  unfold deposit at h
  split at h; · cases h
  split at h; · cases h
  split at h; · cases h
  cases ht : checkedAdd v.total_balance a with
  | none => rw [ht] at h; cases h
  | some t =>
    cases ha : checkedAdd v.available_balance a with
    | none => rw [ht, ha] at h; cases h
    | some av =>
      rw [ht, ha] at h
      simp only [Option.bind_eq_bind, Option.some_bind, Option.some.injEq] at h
      obtain ⟨rfl, hta⟩ := checkedAdd_some ht
      obtain ⟨rfl, haa⟩ := checkedAdd_some ha
      rename_i h1 h2 h3
      exact ⟨by simpa using h1, by simpa using h2, by omega, hta, haa, h.symm⟩

lemma withdraw_some_elim {v v' : Vault} {a s : Nat} {now : Int}
    (h : withdraw v a s now = some v') :
    s = v.user ∧ v.is_active = true ∧ 0 < a ∧ a ≤ v.available_balance ∧
      a ≤ v.total_balance ∧
      v' = { v with total_balance := v.total_balance - a,
                    available_balance := v.available_balance - a, last_updated := now } := by
  unfold withdraw at h
  split at h; · cases h
  split at h; · cases h
  split at h; · cases h
  split at h; · cases h
  cases ht : checkedSub v.total_balance a with
  | none => rw [ht] at h; cases h
  | some t =>
    cases ha : checkedSub v.available_balance a with
    | none => rw [ht, ha] at h; cases h
    | some av =>
      rw [ht, ha] at h
      simp only [Option.bind_eq_bind, Option.some_bind, Option.some.injEq] at h
      obtain ⟨rfl, hta⟩ := checkedSub_some ht
      obtain ⟨rfl, haa⟩ := checkedSub_some ha
      rename_i h1 h2 h3 h4
      exact ⟨by simpa using h1, by simpa using h2, by omega, by omega, hta, h.symm⟩

lemma lock_some_elim {v v' : Vault} {a s : Nat} {now : Int}
    (h : lockCollateral v a s now = some v') :
    0 < a ∧ v.is_active = true ∧ s = v.authority ∧ a ≤ v.available_balance ∧
      v.locked_balance + a < 2 ^ 64 ∧
      v' = { v with available_balance := v.available_balance - a,
                    locked_balance := v.locked_balance + a, last_updated := now } := by
  unfold lockCollateral at h
  split at h; · cases h
  split at h; · cases h
  split at h; · cases h
  split at h; · cases h
  cases ha : checkedSub v.available_balance a with
  | none => rw [ha] at h; cases h
  | some av =>
    cases hl : checkedAdd v.locked_balance a with
    | none => rw [ha, hl] at h; cases h
    | some lk =>
      rw [ha, hl] at h
      simp only [Option.bind_eq_bind, Option.some_bind, Option.some.injEq] at h
      obtain ⟨rfl, haa⟩ := checkedSub_some ha
      obtain ⟨rfl, hlb⟩ := checkedAdd_some hl
      rename_i h1 h2 h3 h4
      exact ⟨by omega, by simpa using h2, by simpa using h3, by omega, hlb, h.symm⟩

lemma unlock_some_elim {v v' : Vault} {a s : Nat} {now : Int}
    (h : unlockCollateral v a s now = some v') :
    0 < a ∧ v.is_active = true ∧ s = v.authority ∧ a ≤ v.locked_balance ∧
      v.available_balance + a < 2 ^ 64 ∧
      v' = { v with locked_balance := v.locked_balance - a,
                    available_balance := v.available_balance + a, last_updated := now } := by
  unfold unlockCollateral at h
  split at h; · cases h
  split at h; · cases h
  split at h; · cases h
  split at h; · cases h
  cases hl : checkedSub v.locked_balance a with
  | none => rw [hl] at h; cases h
  | some lk =>
    cases ha : checkedAdd v.available_balance a with
    | none => rw [hl, ha] at h; cases h
    | some av =>
      rw [hl, ha] at h
      simp only [Option.bind_eq_bind, Option.some_bind, Option.some.injEq] at h
      obtain ⟨rfl, hla⟩ := checkedSub_some hl
      obtain ⟨rfl, hab⟩ := checkedAdd_some ha
      rename_i h1 h2 h3 h4
      exact ⟨by omega, by simpa using h2, by simpa using h3, by omega, hab, h.symm⟩

lemma unlock_intro {v : Vault} {a s : Nat} {now : Int}
    (hpos : 0 < a) (hact : v.is_active = true) (hs : s = v.authority)
    (hlk : a ≤ v.locked_balance) (hav : v.available_balance + a < 2 ^ 64) :
    unlockCollateral v a s now =
      some { v with locked_balance := v.locked_balance - a,
                    available_balance := v.available_balance + a, last_updated := now } := by
  unfold unlockCollateral
  rw [if_neg (by omega), if_neg (by simp [hact]), if_neg (by simp [hs]),
    if_neg (by omega), checkedSub_eq hlk]
  simp only [Option.bind_eq_bind, Option.some_bind]
  rw [checkedAdd_eq hav]
  simp only [Option.bind_eq_bind, Option.some_bind]

lemma transfer_intro {src dst : Vault} {a sg : Nat} {now : Int}
    (hpos : 0 < a) (hsact : src.is_active = true) (hdact : dst.is_active = true)
    (hs : sg = src.authority) (hlk : a ≤ src.locked_balance) (hst : a ≤ src.total_balance)
    (hdt : dst.total_balance + a < 2 ^ 64) (hda : dst.available_balance + a < 2 ^ 64) :
    transferCollateral src dst a sg now =
      some ({ src with locked_balance := src.locked_balance - a,
                       total_balance := src.total_balance - a, last_updated := now },
            { dst with total_balance := dst.total_balance + a,
                       available_balance := dst.available_balance + a, last_updated := now }) := by
  unfold transferCollateral
  rw [if_neg (by omega), if_neg (by simp [hsact]), if_neg (by simp [hdact]),
    if_neg (by simp [hs]), if_neg (by omega), checkedSub_eq hlk]
  simp only [Option.bind_eq_bind, Option.some_bind]
  rw [checkedSub_eq hst]
  simp only [Option.bind_eq_bind, Option.some_bind]
  rw [checkedAdd_eq hdt]
  simp only [Option.bind_eq_bind, Option.some_bind]
  rw [checkedAdd_eq hda]
  simp only [Option.bind_eq_bind, Option.some_bind]

/-- The destination vault's `authority` field is never read by
`transfer_collateral`: replacing it changes nothing but the copied-through
field of the destination output. -/
lemma transfer_dst_authority_irrelevant (src dst : Vault) (a sg x : Nat) (now : Int) :
    transferCollateral src { dst with authority := x } a sg now =
      Option.map (fun p => (p.1, { p.2 with authority := x }))
        (transferCollateral src dst a sg now) := by
  unfold transferCollateral
  dsimp only
  split_ifs <;> try rfl
  cases checkedSub src.locked_balance a <;>
    simp only [Option.bind_eq_bind, Option.none_bind, Option.some_bind, Option.map_none,
      Option.map_some]
  · rfl
  cases checkedSub src.total_balance a <;>
    simp only [Option.none_bind, Option.some_bind, Option.map_none, Option.map_some]
  · rfl
  cases checkedAdd dst.total_balance a <;>
    simp only [Option.none_bind, Option.some_bind, Option.map_none, Option.map_some]
  · rfl
  cases checkedAdd dst.available_balance a <;>
    simp only [Option.none_bind, Option.some_bind, Option.map_none, Option.map_some]
  · rfl
  · rfl

end OnChain

/-- Claim C1: every vault reachable by a sequence of successful on-chain
instructions starting from `initialize_vault` satisfies
`total_balance = locked_balance + available_balance`, and all three balances
are non-negative (they are `u64` values, modelled as `Nat`, so `0 ≤ b`
holds by construction); in particular each of deposit, withdraw,
lock_collateral, unlock_collateral and transfer_collateral preserves the
invariant on every vault it touches, as shown by the inductive cases. -/
theorem C1_reachable_vault_invariant (v : OnChain.Vault)
    (h : OnChain.ReachableVault v) :
    v.total_balance = v.locked_balance + v.available_balance ∧
      0 ≤ v.total_balance ∧ 0 ≤ v.locked_balance ∧ 0 ≤ v.available_balance := by
  refine ⟨?_, Nat.zero_le _, Nat.zero_le _, Nat.zero_le _⟩
  induction h with
  | init u ta b auth now => rfl
  | dep amount signer now _ hop ih => exact OnChain.deposit_inv hop ih
  | wd amount signer now _ hop ih => exact OnChain.withdraw_inv hop ih
  | lk amount signer now _ hop ih => exact OnChain.lock_inv hop ih
  | ulk amount signer now _ hop ih => exact OnChain.unlock_inv hop ih
  | xferSrc amount signer now _ _ hop ihs ihd => exact (OnChain.transfer_inv hop ihs ihd).1
  | xferDst amount signer now _ _ hop ihs ihd => exact (OnChain.transfer_inv hop ihs ihd).2

/-- The vault reached by initializing, depositing 1000 and locking 600. -/
def lockedV : OnChain.Vault := ⟨1, 2, 255, 1000, 600, 400, 7, true, 9⟩

lemma lockedV_reachable : OnChain.ReachableVault lockedV := by
  have h0 : OnChain.ReachableVault (OnChain.initVault 1 2 255 9 5) :=
    OnChain.ReachableVault.init 1 2 255 9 5
  have h1 := @OnChain.ReachableVault.dep (OnChain.initVault 1 2 255 9 5) 1000 1 6
    ⟨1, 2, 255, 1000, 0, 1000, 6, true, 9⟩ h0 (by decide)
  exact OnChain.ReachableVault.lk 600 9 7 h1 (by decide)

/-- Witness for C1: the vault obtained by initializing, depositing 1000 and
locking 600 is reachable, and the theorem yields its invariant. -/
theorem C1_reachable_vault_invariant_witness :
    OnChain.ReachableVault lockedV ∧
      (lockedV.total_balance = lockedV.locked_balance + lockedV.available_balance ∧
        0 ≤ lockedV.total_balance ∧ 0 ≤ lockedV.locked_balance ∧
        0 ≤ lockedV.available_balance) :=
  ⟨lockedV_reachable, C1_reachable_vault_invariant lockedV lockedV_reachable⟩

/-- Example vault used by concrete witnesses: owner 1, token account 2,
bump 3, balances (100, 40, 60), active, authority 7. -/
def exV : OnChain.Vault := ⟨1, 2, 3, 100, 40, 60, 0, true, 7⟩

/-- `exV` after `deposit 10` at time 1. -/
def exW1 : OnChain.Vault := ⟨1, 2, 3, 110, 40, 70, 1, true, 7⟩

/-- `exV` after `withdraw 10` at time 1. -/
def exW2 : OnChain.Vault := ⟨1, 2, 3, 90, 40, 50, 1, true, 7⟩

/-- `exV` after `lock_collateral 10` at time 1. -/
def exW3 : OnChain.Vault := ⟨1, 2, 3, 100, 50, 50, 1, true, 7⟩

/-- `exV` after `unlock_collateral 10` at time 1. -/
def exW4 : OnChain.Vault := ⟨1, 2, 3, 100, 30, 70, 1, true, 7⟩

/-- Claim C7: whenever `lock_collateral a` succeeds on a vault, a subsequent
`unlock_collateral a` (by the same authority signer) succeeds and restores
the locked and available balances exactly, with the total balance unchanged
throughout.  The hypothesis `v.available_balance < 2 ^ 64` records that the
balance is a `u64` value of the on-chain account. -/
theorem C7_lock_unlock_roundtrip (v v' : OnChain.Vault) (a s : Nat) (now now' : Int)
    (hrep : v.available_balance < 2 ^ 64)
    (h : OnChain.lockCollateral v a s now = some v') :
    v'.total_balance = v.total_balance ∧
      ∃ v'' : OnChain.Vault, OnChain.unlockCollateral v' a s now' = some v'' ∧
        v''.locked_balance = v.locked_balance ∧
        v''.available_balance = v.available_balance ∧
        v''.total_balance = v.total_balance := by
  obtain ⟨hpos, hact, hs, hav, hlk, rfl⟩ := OnChain.lock_some_elim h
  refine ⟨rfl, ?_⟩
  refine ⟨_, OnChain.unlock_intro hpos hact hs (by dsimp only; omega)
    (by dsimp only; omega), ?_, ?_, ?_⟩
  · dsimp only; omega
  · dsimp only; omega
  · rfl

/-- Witness for C7: locking 10 out of `exV` and unlocking 10 again restores
the balances (100, 40, 60). -/
theorem C7_lock_unlock_roundtrip_witness :
    exW3.total_balance = exV.total_balance ∧
      ∃ v'' : OnChain.Vault, OnChain.unlockCollateral exW3 10 7 2 = some v'' ∧
        v''.locked_balance = exV.locked_balance ∧
        v''.available_balance = exV.available_balance ∧
        v''.total_balance = exV.total_balance :=
  C7_lock_unlock_roundtrip exV exW3 10 7 1 2 (by decide) (by decide)

/-- Claim C9: the on-chain `transfer_collateral` checks the signer only
against the SOURCE vault's stored authority.  Under the instruction's actual
guards (positive amount, both vaults active, signer = source authority,
sufficient locked balance on the source; the `u64` arithmetic bounds) the
transfer succeeds, with no hypothesis whatsoever relating the signer to the
destination vault's authority — and the destination's `authority` field is
never consulted: replacing it does not change whether the call succeeds. -/
theorem C9_transfer_ignores_destination_authority
    (src dst : OnChain.Vault) (a sg : Nat) (now : Int)
    (hpos : 0 < a) (hsact : src.is_active = true) (hdact : dst.is_active = true)
    (hs : sg = src.authority) (hlk : a ≤ src.locked_balance)
    (hst : a ≤ src.total_balance)
    (hdt : dst.total_balance + a < 2 ^ 64) (hda : dst.available_balance + a < 2 ^ 64) :
    (OnChain.transferCollateral src dst a sg now).isSome = true ∧
      ∀ x : Nat,
        (OnChain.transferCollateral src { dst with authority := x } a sg now).isSome =
          (OnChain.transferCollateral src dst a sg now).isSome := by
  constructor
  · rw [OnChain.transfer_intro hpos hsact hdact hs hlk hst hdt hda]; rfl
  · intro x
    rw [OnChain.transfer_dst_authority_irrelevant]
    cases OnChain.transferCollateral src dst a sg now <;> rfl

/-- Witness for C9: a transfer of 10 from `exV` (authority 7) into a vault
whose stored authority is 42 succeeds although the signer 7 differs from 42. -/
theorem C9_transfer_ignores_destination_authority_witness :
    (7 : Nat) ≠ 42 ∧
      ((OnChain.transferCollateral exV ⟨5, 6, 3, 20, 0, 20, 0, true, 42⟩ 10 7 1).isSome = true ∧
        ∀ x : Nat,
          (OnChain.transferCollateral exV
              { (⟨5, 6, 3, 20, 0, 20, 0, true, 42⟩ : OnChain.Vault) with authority := x }
              10 7 1).isSome =
            (OnChain.transferCollateral exV ⟨5, 6, 3, 20, 0, 20, 0, true, 42⟩ 10 7 1).isSome) :=
  ⟨by decide,
    C9_transfer_ignores_destination_authority exV ⟨5, 6, 3, 20, 0, 20, 0, true, 42⟩ 10 7 1
      (by decide) (by decide) (by decide) (by decide) (by decide) (by decide) (by decide)
      (by decide)⟩

/-- Claim C10: each successful on-chain `deposit`, `withdraw`,
`lock_collateral` and `unlock_collateral` modifies only the three balance
fields and `last_updated`; the vault's `user`, `token_account`, `bump`,
`is_active` and `authority` fields are unchanged. -/
theorem C10_single_vault_ops_frame
    (v1 v2 v3 v4 w1 w2 w3 w4 : OnChain.Vault) (a1 a2 a3 a4 s1 s2 s3 s4 : Nat)
    (t1 t2 t3 t4 : Int)
    (h1 : OnChain.deposit v1 a1 s1 t1 = some w1)
    (h2 : OnChain.withdraw v2 a2 s2 t2 = some w2)
    (h3 : OnChain.lockCollateral v3 a3 s3 t3 = some w3)
    (h4 : OnChain.unlockCollateral v4 a4 s4 t4 = some w4) :
    (w1.user = v1.user ∧ w1.token_account = v1.token_account ∧ w1.bump = v1.bump ∧
      w1.is_active = v1.is_active ∧ w1.authority = v1.authority) ∧
    (w2.user = v2.user ∧ w2.token_account = v2.token_account ∧ w2.bump = v2.bump ∧
      w2.is_active = v2.is_active ∧ w2.authority = v2.authority) ∧
    (w3.user = v3.user ∧ w3.token_account = v3.token_account ∧ w3.bump = v3.bump ∧
      w3.is_active = v3.is_active ∧ w3.authority = v3.authority) ∧
    (w4.user = v4.user ∧ w4.token_account = v4.token_account ∧ w4.bump = v4.bump ∧
      w4.is_active = v4.is_active ∧ w4.authority = v4.authority) := by
  obtain ⟨-, -, -, -, -, rfl⟩ := OnChain.deposit_some_elim h1
  obtain ⟨-, -, -, -, -, rfl⟩ := OnChain.withdraw_some_elim h2
  obtain ⟨-, -, -, -, -, rfl⟩ := OnChain.lock_some_elim h3
  obtain ⟨-, -, -, -, -, rfl⟩ := OnChain.unlock_some_elim h4
  exact ⟨⟨rfl, rfl, rfl, rfl, rfl⟩, ⟨rfl, rfl, rfl, rfl, rfl⟩,
    ⟨rfl, rfl, rfl, rfl, rfl⟩, ⟨rfl, rfl, rfl, rfl, rfl⟩⟩

/-- Witness for C10: the four operations applied to `exV` with amount 10. -/
theorem C10_single_vault_ops_frame_witness :
    (exW1.user = exV.user ∧ exW1.token_account = exV.token_account ∧ exW1.bump = exV.bump ∧
      exW1.is_active = exV.is_active ∧ exW1.authority = exV.authority) ∧
    (exW2.user = exV.user ∧ exW2.token_account = exV.token_account ∧ exW2.bump = exV.bump ∧
      exW2.is_active = exV.is_active ∧ exW2.authority = exV.authority) ∧
    (exW3.user = exV.user ∧ exW3.token_account = exV.token_account ∧ exW3.bump = exV.bump ∧
      exW3.is_active = exV.is_active ∧ exW3.authority = exV.authority) ∧
    (exW4.user = exV.user ∧ exW4.token_account = exV.token_account ∧ exW4.bump = exV.bump ∧
      exW4.is_active = exV.is_active ∧ exW4.authority = exV.authority) :=
  C10_single_vault_ops_frame exV exV exV exV exW1 exW2 exW3 exW4 10 10 10 10 1 1 7 7 1 1 1 1
    (by decide) (by decide) (by decide) (by decide)

namespace OffChain

/-- The `vaults` row (`models.rs` `struct Vault` / `database.rs` queries):
`i64` balance columns become `Int`, timestamps become `Int`, public keys stay
opaque strings. -/
structure Vault where
  id : Nat
  user_pubkey : String
  vault_pubkey : String
  token_account_pubkey : String
  total_balance : Int
  locked_balance : Int
  available_balance : Int
  is_active : Bool
  created_at : Int
  updated_at : Int
deriving DecidableEq, Repr

/-- `VaultRepository::update_vault_balances` (`database.rs` lines 77-106):
returns an error (leaving the row untouched) iff `total ≠ locked + available`;
otherwise overwrites exactly the three balance columns and `updated_at`.
There is no negativity check in the source. -/
def updateVaultBalances (v : Vault) (total locked available : Int) (now : Int) :
    Except String Vault :=
  if total ≠ locked + available then
    .error "Balance invariant violation"
  else
    .ok { v with total_balance := total, locked_balance := locked,
                 available_balance := available, updated_at := now }

/-- The `transaction_records` row (`database.rs` queries): id is a surrogate
for the generated UUID, timestamps are `Int`. -/
structure TxRecord where
  id : Nat
  vault_id : Nat
  operation_type : String
  amount : Int
  signature : Option String
  status : String
  error_message : Option String
  idempotency_key : Option String
  created_at : Int
  updated_at : Int
deriving DecidableEq, Repr

/-- `TransactionRepository::create_transaction` (`database.rs` lines
163-190): a plain `INSERT` of a fresh `'pending'` record.  The source
performs NO lookup of the idempotency key before inserting.
Modelled from the spec: the persisted schema is not under `src/`; §6 of the
spec requires a uniqueness constraint on
`transaction_records.idempotency_key`, so an INSERT whose non-null key is
already present fails with a database error instead of inserting. -/
def repoCreateTransaction (db : List TxRecord) (vault_id : Nat)
    (operation_type : String) (amount : Int) (signature : Option String)
    (idempotency_key : Option String) (now : Int) :
    Except String (TxRecord × List TxRecord) :=
  let fresh : TxRecord :=
    ⟨db.length, vault_id, operation_type, amount, signature, "pending", none,
      idempotency_key, now, now⟩
  match idempotency_key with
  | some k =>
      if db.any (fun r => r.idempotency_key == some k) then
        .error "duplicate key value violates unique constraint"
      else
        .ok (fresh, db ++ [fresh])
  | none => .ok (fresh, db ++ [fresh])

/-- The `TransactionType` enum (`models.rs`), rendered to the lowercase string
the manager stores (`format!("{:?}", tx_type).to_lowercase()`). -/
inductive TxKind where
  | initK | depositK | withdrawK | lockK | unlockK | transferK
deriving DecidableEq, Repr

def TxKind.toDbString : TxKind → String
  | .initK => "initialize"
  | .depositK => "deposit"
  | .withdrawK => "withdraw"
  | .lockK => "lock"
  | .unlockK => "unlock"
  | .transferK => "transfer"

/-- `TransactionManager::create_transaction` (`vault_manager.rs` lines
203-232): formats the operation kind and delegates to the repository INSERT;
it performs no idempotency-key lookup either.  (The audit-log side write is
elided: it does not affect the transaction table.) -/
def mgrCreateTransaction (db : List TxRecord) (vault_id : Nat) (tx_type : TxKind)
    (amount : Int) (tx_signature : Option String) (idempotency_key : Option String)
    (now : Int) : Except String (TxRecord × List TxRecord) :=
  repoCreateTransaction db vault_id tx_type.toDbString amount tx_signature
    idempotency_key now

/-- `TransactionRepository::cleanup_stale_transactions` (`database.rs` lines
276-290): one SQL UPDATE setting `status = 'failed'`,
`error_message = 'Transaction expired'`, `updated_at = NOW()` on every row
with `status = 'pending' AND created_at < cutoff`, returning the number of
rows affected. -/
def cleanupStaleTransactions (db : List TxRecord) (cutoff : Int) (now : Int) :
    List TxRecord × Nat :=
  match db with
  | [] => ([], 0)
  | r :: rest =>
      let p := cleanupStaleTransactions rest cutoff now
      if r.status = "pending" ∧ r.created_at < cutoff then
        ({ r with status := "failed", error_message := some "Transaction expired",
                  updated_at := now } :: p.1, p.2 + 1)
      else
        (r :: p.1, p.2)

/-- Outcomes of one RPC send-and-confirm attempt.  The constructors record
the spec's taxonomy (§4.5: signature verification, insufficient on-chain
balance, PDA mismatch, program custom error are deterministic; network
errors are transient); the submitter's code never inspects this. -/
inductive SendErr where
  | sigVerify
  | insufficientFunds
  | pdaMismatch
  | customProgram (code : Nat)
  | network (msg : String)
deriving DecidableEq, Repr

/-- The spec's classification of send errors (§4.5).  Purely a vocabulary for
stating claims: `submit_transaction` in the source has no such branch. -/
def SendErr.isDeterministic : SendErr → Bool
  | .network _ => false
  | _ => true

/-- The retry loop of `TransactionSubmitter::submit_transaction`
(`transaction_builder.rs` lines 402-431), with `f i` the outcome of the i-th
send attempt: return the first success; on error, retry while attempts
remain, else return `TransactionFailed` wrapping the last error.  The
`retry_delay_ms` sleep between attempts has no observable effect here. -/
def submitAux (f : Nat → Except SendErr String) :
    Nat → Nat → Except (Option SendErr) String
  | remaining, idx =>
    match f idx with
    | .ok s => .ok s
    | .error e =>
      match remaining with
      | 0 => .error (some e)
      | Nat.succ rem => submitAux f rem (idx + 1)

/-- `TransactionSubmitter::submit_transaction`: run the loop starting at
attempt 0 with `max_retries` retries remaining. -/
def submitTransaction (f : Nat → Except SendErr String) (max_retries : Nat) :
    Except (Option SendErr) String :=
  submitAux f max_retries 0

end OffChain

namespace OffChain

lemma cleanup_length (db : List TxRecord) (cutoff now : Int) :
    (cleanupStaleTransactions db cutoff now).1.length = db.length := by
  induction db with
  | nil => rfl
  | cons r rest ih =>
    unfold cleanupStaleTransactions
    dsimp only
    split <;> simp [ih]

lemma cleanup_count (db : List TxRecord) (cutoff now : Int) :
    (cleanupStaleTransactions db cutoff now).2 =
      (db.filter fun r => decide (r.status = "pending" ∧ r.created_at < cutoff)).length := by
  induction db with
  | nil => rfl
  | cons r rest ih =>
    unfold cleanupStaleTransactions
    dsimp only
    split
    · rename_i h
      simp [List.filter, h, ih]
    · rename_i h
      simp [List.filter, h, ih]

lemma cleanup_get? (db : List TxRecord) (cutoff now : Int) (i : Nat) :
    (cleanupStaleTransactions db cutoff now).1.get? i =
      (db.get? i).map fun r =>
        if r.status = "pending" ∧ r.created_at < cutoff then
          { r with status := "failed", error_message := some "Transaction expired",
                   updated_at := now }
        else r := by
  induction db generalizing i with
  | nil => simp [cleanupStaleTransactions]
  | cons r rest ih =>
    unfold cleanupStaleTransactions
    dsimp only
    split
    · rename_i h
      cases i with
      | zero => simp [h]
      | succ n => simpa using ih n
    · rename_i h
      cases i with
      | zero => simp [h]
      | succ n => simpa using ih n

lemma submitAux_all_err (f : Nat → Except SendErr String) :
    ∀ rem idx, (∀ j, idx ≤ j → j ≤ idx + rem → ∃ e, f j = .error e) →
      ∃ e, f (idx + rem) = .error e ∧ submitAux f rem idx = .error (some e) := by
  intro rem
  induction rem with
  | zero =>
    intro idx h
    obtain ⟨e, he⟩ := h idx (le_refl _) (by omega)
    exact ⟨e, he, by unfold submitAux; rw [he]⟩
  | succ rem ih =>
    intro idx h
    obtain ⟨e0, he0⟩ := h idx (le_refl _) (by omega)
    obtain ⟨e, he, hs⟩ := ih (idx + 1) (fun j h1 h2 => h j (by omega) (by omega))
    refine ⟨e, ?_, ?_⟩
    · have hx : idx + (rem + 1) = (idx + 1) + rem := by omega
      rw [hx]; exact he
    · unfold submitAux
      rw [he0]
      exact hs

lemma submitAux_first_ok (f : Nat → Except SendErr String) :
    ∀ rem idx i s, idx ≤ i → i ≤ idx + rem → f i = .ok s →
      (∀ j, idx ≤ j → j < i → ∃ e, f j = .error e) →
      submitAux f rem idx = .ok s := by
  intro rem
  induction rem with
  | zero =>
    intro idx i s h1 h2 hok hprev
    have hi : i = idx := by omega
    subst hi
    unfold submitAux; rw [hok]
  | succ rem ih =>
    intro idx i s h1 h2 hok hprev
    by_cases hc : i = idx
    · subst hc; unfold submitAux; rw [hok]
    · obtain ⟨e0, he0⟩ := hprev idx (le_refl _) (by omega)
      have hrec := ih (idx + 1) i s (by omega) (by omega) hok
        (fun j hj1 hj2 => hprev j (by omega) hj2)
      unfold submitAux
      rw [he0]
      exact hrec

end OffChain

/-- Example database vault row: id 1, balances (100, 40, 60), active. -/
def exRow : OffChain.Vault := ⟨1, "u1", "vp1", "ta1", 100, 40, 60, true, 0, 0⟩

/-- Claim C2 (code bug): `update_vault_balances` only validates
`total = locked + available`; it accepts NEGATIVE balances whose sum matches.
At `(total, locked, available) = (-1000, 0, -1000)` — exactly the input the
repository's own `test_negative_balance_attempts` security test expects to be
rejected — the call succeeds and stores the negative balances. -/
theorem C2_negative_balances_accepted :
    OffChain.updateVaultBalances exRow (-1000) 0 (-1000) 99 =
      .ok { exRow with total_balance := -1000, locked_balance := 0,
                       available_balance := -1000, updated_at := 99 } ∧
    (-1000 : Int) < 0 := by
  constructor
  · rfl
  · decide

/-- The record produced by the first `begin` call of the C3 scenario. -/
def firstRec : OffChain.TxRecord :=
  ⟨0, 7, "deposit", 1000, none, "pending", none, some "key-1", 5, 5⟩

/-- Claim C3 (code bug): `create_transaction` never looks up the idempotency
key.  Replaying `begin` with the same key "key-1" does not return the
existing record: under the schema's unique index (spec §6) the second INSERT
fails with a duplicate-key database error (and absent that index it would
insert a second row), in both cases contradicting the claimed idempotent
replay. -/
theorem C3_begin_replay_not_idempotent :
    OffChain.mgrCreateTransaction [] 7 .depositK 1000 none (some "key-1") 5 =
      .ok (firstRec, [firstRec]) ∧
    OffChain.mgrCreateTransaction [firstRec] 7 .depositK 1000 none (some "key-1") 6 =
      .error "duplicate key value violates unique constraint" := by
  constructor
  · rfl
  · rfl

/-- A pending record created at time 0, stale for any cutoff above 0. -/
def staleRec : OffChain.TxRecord :=
  ⟨0, 1, "deposit", 5, none, "pending", none, none, 0, 0⟩

/-- Claim C8 counterexample: the reason stored by
`cleanup_stale_transactions` is the string "Transaction expired", not
"expired" as the claim states. -/
theorem C8_reason_is_not_expired :
    (OffChain.cleanupStaleTransactions [staleRec] 10 99).1 =
      [{ staleRec with status := "failed",
                       error_message := some "Transaction expired", updated_at := 99 }] ∧
    (OffChain.cleanupStaleTransactions [staleRec] 10 99).2 = 1 ∧
    some "Transaction expired" ≠ some "expired" := by
  refine ⟨rfl, rfl, by decide⟩

/-- Claim C8 (amended: the stored failure reason is "Transaction expired"
rather than "expired"): for every cutoff, `cleanup_stale_transactions` marks
as failed, with error message "Transaction expired", exactly those records
whose status is pending and whose creation time is older than the cutoff,
leaves all other records unchanged (same length, pointwise identity), and
returns the number of records so marked. -/
theorem C8_cleanup_marks_exactly_stale_pendings
    (db : List OffChain.TxRecord) (cutoff now : Int) :
    (OffChain.cleanupStaleTransactions db cutoff now).1.length = db.length ∧
    (OffChain.cleanupStaleTransactions db cutoff now).2 =
      (db.filter fun r => decide (r.status = "pending" ∧ r.created_at < cutoff)).length ∧
    ∀ i : Nat,
      (OffChain.cleanupStaleTransactions db cutoff now).1.get? i =
        (db.get? i).map fun r =>
          if r.status = "pending" ∧ r.created_at < cutoff then
            { r with status := "failed", error_message := some "Transaction expired",
                     updated_at := now }
          else r :=
  ⟨OffChain.cleanup_length db cutoff now, OffChain.cleanup_count db cutoff now,
    fun i => OffChain.cleanup_get? db cutoff now i⟩

/-- Send outcomes whose first attempt fails with a deterministic signature
verification error and whose second attempt succeeds. -/
def detThenOk : Nat → Except OffChain.SendErr String
  | 0 => .error .sigVerify
  | _ => .ok "sig"

/-- Send outcomes that always fail with a transient network error. -/
def allNetErr : Nat → Except OffChain.SendErr String :=
  fun _ => .error (.network "timeout")

/-- Claim C5 counterexample: the first attempt fails with a DETERMINISTIC
error (signature verification), yet `submit_transaction` does not return the
failure immediately — it retries and returns the second attempt's success,
because the source retries every error without classifying it. -/
theorem C5_deterministic_error_is_retried :
    detThenOk 0 = .error OffChain.SendErr.sigVerify ∧
    OffChain.SendErr.isDeterministic .sigVerify = true ∧
    OffChain.submitTransaction detThenOk 3 = .ok "sig" :=
  ⟨rfl, rfl, rfl⟩

/-- Claim C5 (amended): `submit_transaction` performs no error
classification at all.  Every send failure — deterministic or transient —
is retried alike, up to `max_retries` additional attempts: the call returns
the first success among attempts `0..max_retries`, and if every one of those
attempts fails it returns `TransactionFailed` wrapping the last error. -/
theorem C5_submit_retries_every_error
    (f : Nat → Except OffChain.SendErr String) (r : Nat) :
    ((∀ j, j ≤ r → ∃ e, f j = .error e) →
        ∃ e, f r = .error e ∧ OffChain.submitTransaction f r = .error (some e)) ∧
    (∀ i s, i ≤ r → f i = .ok s →
        (∀ j, j < i → ∃ e, f j = .error e) →
        OffChain.submitTransaction f r = .ok s) := by
  constructor
  · intro h
    have hx := OffChain.submitAux_all_err f r 0 (fun j h1 h2 => h j (by omega))
    simpa [OffChain.submitTransaction] using hx
  · intro i s h1 hok hprev
    exact OffChain.submitAux_first_ok f r 0 i s (by omega) (by omega) hok
      (fun j hj1 hj2 => hprev j hj2)

/-- Witness for C5: three all-transient attempts exhaust the retry budget 2
and fail with the last error; a deterministic first failure followed by a
success returns that success. -/
theorem C5_submit_retries_every_error_witness :
    (∃ e, allNetErr 2 = .error e ∧
        OffChain.submitTransaction allNetErr 2 = .error (some e)) ∧
    OffChain.submitTransaction detThenOk 3 = .ok "sig" :=
  ⟨(C5_submit_retries_every_error allNetErr 2).1
      (fun j hj => ⟨.network "timeout", rfl⟩),
   (C5_submit_retries_every_error detThenOk 3).2 1 "sig" (by omega) rfl
     (fun j hj => by
        cases j with
        | zero => exact ⟨.sigVerify, rfl⟩
        | succ n => omega)⟩

namespace OffChain

/-- `amount as i64` in Rust: the `u64 → i64` bit-cast (two's complement). -/
def asI64 (n : Nat) : Int :=
  if n % 2 ^ 64 < 2 ^ 63 then ((n % 2 ^ 64 : Nat) : Int)
  else ((n % 2 ^ 64 : Nat) : Int) - 2 ^ 64

/-- Error kinds of `error.rs` `VaultError` produced along the coordinator
paths. -/
inductive CErr where
  | notFound
  | insufficientBalance
  | concurrentConflict
  | validationError
  | transactionFailed
  | databaseError
  | invalidInput
deriving DecidableEq, Repr

/-- The mutable state the coordinator touches: the durable `vaults` and
`transaction_records` tables and the in-memory pending-operation set
(`CPIManager.pending_operations`, here the list of operation ids). -/
structure CoordState where
  vaults : List Vault
  txdb : List TxRecord
  pending : List Nat
deriving DecidableEq, Repr

/-- Outcomes of the coordinator's environment-dependent steps: `parse` is
`Pubkey::from_str` on a stored pubkey string; `buildOk` the builder outcome;
`create1Ok` / `create2Ok` the DB+audit outcome of the first / second
`create_transaction`; `submit` the submitter outcome; `confirmOk` the
confirmed-status DB update; `applyOk` / `apply2Ok` the DB write inside the
first / second `update_balances`; `markFailOk` the failed-status update of
the destination record on the transfer error path. -/
structure CpiEnv where
  parse : String → Option Nat
  buildOk : Bool
  create1Ok : Bool
  create2Ok : Bool
  submit : Except CErr String
  confirmOk : Bool
  applyOk : Bool
  apply2Ok : Bool
  markFailOk : Bool

/-- `VaultRepository::get_vault_by_id`: `NotFound` when the row is absent. -/
def getVaultById (vs : List Vault) (vid : Nat) : Except CErr Vault :=
  match vs.find? (fun v => v.id == vid) with
  | some v => .ok v
  | none => .error .notFound

/-- `TransactionRepository::update_transaction_status`: set status and error
message (and `updated_at`) on the row with the given id. -/
def updateTxStatus (db : List TxRecord) (rid : Nat) (status : String)
    (errMsg : Option String) (now : Int) : List TxRecord :=
  db.map fun r =>
    if r.id == rid then
      { r with status := status, error_message := errMsg, updated_at := now }
    else r

/-- `VaultManager::update_balances` (`vault_manager.rs` lines 93-130): reads
the current row (for the audit trail), delegates to
`update_vault_balances` — which rejects iff `total ≠ locked + available` —
and writes the row; `dbOk` abstracts the DB/audit write outcome. -/
def vaultMgrUpdateBalances (st : CoordState) (vid : Nat) (t l a now : Int)
    (dbOk : Bool) : Except CErr CoordState :=
  match getVaultById st.vaults vid with
  | .error e => .error e
  | .ok _ =>
    if t ≠ l + a then .error .invalidInput
    else if dbOk then
      .ok { st with vaults := st.vaults.map fun v =>
              if v.id == vid then
                { v with total_balance := t, locked_balance := l,
                         available_balance := a, updated_at := now }
              else v }
    else .error .databaseError

/-- `CPIManager::submit_and_confirm` (`cpi_manager.rs` lines 293-303): submit
the built transaction, then mark the record confirmed; either failure is
returned to the caller. -/
def submitAndConfirm (env : CpiEnv) (st : CoordState) (rid : Nat) (now : Int) :
    Except CErr String × CoordState :=
  match env.submit with
  | .error e => (.error e, st)
  | .ok sig =>
    if env.confirmOk then
      (.ok sig, { st with txdb := updateTxStatus st.txdb rid "confirmed" none now })
    else (.error .databaseError, st)

/-- `CPIManager::lock_collateral` (`cpi_manager.rs` lines 50-115), in source
order: load the vault; pre-check `available < amount as i64`; reject a
duplicate operation id; INSERT the operation id into the pending set; parse
the stored vault pubkey; build; create the transaction record; submit and
confirm; REMOVE the pending entry; on submit success apply the balance
delta.  Note the `?`-returns between the insert and the removal. -/
def cpiLockCollateral (env : CpiEnv) (st : CoordState) (vid : Nat) (amount : Nat)
    (opId : Nat) (now : Int) : Except CErr String × CoordState :=
  match getVaultById st.vaults vid with
  | .error e => (.error e, st)
  | .ok vault =>
    if vault.available_balance < asI64 amount then (.error .insufficientBalance, st)
    else if opId ∈ st.pending then (.error .concurrentConflict, st)
    else
      let st1 := { st with pending := opId :: st.pending }
      match env.parse vault.vault_pubkey with
      | none => (.error .validationError, st1)
      | some _ =>
        if ¬ env.buildOk then (.error .transactionFailed, st1)
        else if ¬ env.create1Ok then (.error .databaseError, st1)
        else
          let rid := st1.txdb.length
          let st2 := { st1 with txdb := st1.txdb ++
                        [⟨rid, vid, "lock", asI64 amount, none, "pending", none, none,
                          now, now⟩] }
          let res := submitAndConfirm env st2 rid now
          let st3 := { res.2 with pending := res.2.pending.filter (fun x => x != opId) }
          match res.1 with
          | .ok sig =>
            match vaultMgrUpdateBalances st3 vid vault.total_balance
                (vault.locked_balance + asI64 amount)
                (vault.available_balance - asI64 amount) now env.applyOk with
            | .ok st4 => (.ok sig, st4)
            | .error e => (.error e, st3)
          | .error e => (.error e, st3)

/-- `CPIManager::unlock_collateral` (`cpi_manager.rs` lines 118-183): same
shape as the lock path with the `locked < amount as i64` pre-check and the
opposite delta. -/
def cpiUnlockCollateral (env : CpiEnv) (st : CoordState) (vid : Nat) (amount : Nat)
    (opId : Nat) (now : Int) : Except CErr String × CoordState :=
  match getVaultById st.vaults vid with
  | .error e => (.error e, st)
  | .ok vault =>
    if vault.locked_balance < asI64 amount then (.error .insufficientBalance, st)
    else if opId ∈ st.pending then (.error .concurrentConflict, st)
    else
      let st1 := { st with pending := opId :: st.pending }
      match env.parse vault.vault_pubkey with
      | none => (.error .validationError, st1)
      | some _ =>
        if ¬ env.buildOk then (.error .transactionFailed, st1)
        else if ¬ env.create1Ok then (.error .databaseError, st1)
        else
          let rid := st1.txdb.length
          let st2 := { st1 with txdb := st1.txdb ++
                        [⟨rid, vid, "unlock", asI64 amount, none, "pending", none, none,
                          now, now⟩] }
          let res := submitAndConfirm env st2 rid now
          let st3 := { res.2 with pending := res.2.pending.filter (fun x => x != opId) }
          match res.1 with
          | .ok sig =>
            match vaultMgrUpdateBalances st3 vid vault.total_balance
                (vault.locked_balance - asI64 amount)
                (vault.available_balance + asI64 amount) now env.applyOk with
            | .ok st4 => (.ok sig, st4)
            | .error e => (.error e, st3)
          | .error e => (.error e, st3)

/-- `CPIManager::transfer_collateral` (`cpi_manager.rs` lines 186-290): load
both vaults; pre-check the source's locked balance; duplicate check; insert
the pending entry; parse both stored pubkeys; build; create BOTH transaction
records; submit and confirm against the source record; remove the pending
entry; on success apply both deltas, on submit failure mark the destination
record failed. -/
def cpiTransferCollateral (env : CpiEnv) (st : CoordState) (srcVid dstVid : Nat)
    (amount : Nat) (opId : Nat) (now : Int) : Except CErr String × CoordState :=
  match getVaultById st.vaults srcVid with
  | .error e => (.error e, st)
  | .ok src =>
    match getVaultById st.vaults dstVid with
    | .error e => (.error e, st)
    | .ok dst =>
      if src.locked_balance < asI64 amount then (.error .insufficientBalance, st)
      else if opId ∈ st.pending then (.error .concurrentConflict, st)
      else
        let st1 := { st with pending := opId :: st.pending }
        match env.parse src.vault_pubkey with
        | none => (.error .validationError, st1)
        | some _ =>
          match env.parse dst.vault_pubkey with
          | none => (.error .validationError, st1)
          | some _ =>
            if ¬ env.buildOk then (.error .transactionFailed, st1)
            else if ¬ env.create1Ok then (.error .databaseError, st1)
            else
              let rid1 := st1.txdb.length
              let st2 := { st1 with txdb := st1.txdb ++
                            [⟨rid1, srcVid, "transfer", -(asI64 amount), none, "pending",
                              none, none, now, now⟩] }
              if ¬ env.create2Ok then (.error .databaseError, st2)
              else
                let rid2 := st2.txdb.length
                let st3 := { st2 with txdb := st2.txdb ++
                              [⟨rid2, dstVid, "transfer", asI64 amount, none, "pending",
                                none, none, now, now⟩] }
                let res := submitAndConfirm env st3 rid1 now
                let st4 := { res.2 with
                              pending := res.2.pending.filter (fun x => x != opId) }
                match res.1 with
                | .ok sig =>
                  match vaultMgrUpdateBalances st4 srcVid
                      (src.total_balance - asI64 amount)
                      (src.locked_balance - asI64 amount)
                      src.available_balance now env.applyOk with
                  | .error e => (.error e, st4)
                  | .ok st5 =>
                    match vaultMgrUpdateBalances st5 dstVid
                        (dst.total_balance + asI64 amount)
                        dst.locked_balance
                        (dst.available_balance + asI64 amount) now env.apply2Ok with
                    | .error e => (.error e, st5)
                    | .ok st6 => (.ok sig, st6)
                | .error e =>
                  if env.markFailOk then
                    (.error e, { st4 with
                      txdb := updateTxStatus st4.txdb rid2 "failed"
                        (some "submit failed") now })
                  else (.error .databaseError, st4)

end OffChain

namespace OffChain

lemma not_mem_filter_bne (l : List Nat) (a : Nat) : a ∉ l.filter (fun x => x != a) := by
  simp [List.mem_filter]

lemma vaultMgrUpdateBalances_pending {st st' : CoordState} {vid : Nat}
    {t l a now : Int} {f : Bool}
    (h : vaultMgrUpdateBalances st vid t l a now f = .ok st') :
    st'.pending = st.pending := by
  unfold vaultMgrUpdateBalances at h
  revert h
  cases getVaultById st.vaults vid with
  | error e => intro h; exact Except.noConfusion h
  | ok v =>
    by_cases hinv : t ≠ l + a
    · rw [if_pos hinv]; intro h; exact Except.noConfusion h
    · rw [if_neg hinv]
      by_cases hf : f = true
      · rw [if_pos hf]
        intro h
        injection h with h'
        rw [← h']
      · rw [if_neg hf]; intro h; exact Except.noConfusion h

lemma cpiLock_pending (env : CpiEnv) (st : CoordState) (vid amount opId : Nat)
    (now : Int)
    (hp : ∀ p, (env.parse p).isSome = true) (hb : env.buildOk = true)
    (hc1 : env.create1Ok = true) (h0 : opId ∉ st.pending) :
    opId ∉ (cpiLockCollateral env st vid amount opId now).2.pending := by
  unfold cpiLockCollateral
  cases hg : getVaultById st.vaults vid with
  | error e => exact h0
  | ok vault =>
    dsimp only
    by_cases hins : vault.available_balance < asI64 amount
    · rw [if_pos hins]; exact h0
    rw [if_neg hins, if_neg h0]
    have hps := hp vault.vault_pubkey
    cases hpe : env.parse vault.vault_pubkey with
    | none => rw [hpe] at hps; simp at hps
    | some k =>
      dsimp only
      rw [if_neg (not_not_intro hb), if_neg (not_not_intro hc1)]
      split
      · split
        · rename_i heq
          rw [vaultMgrUpdateBalances_pending heq]
          exact not_mem_filter_bne _ _
        · exact not_mem_filter_bne _ _
      · exact not_mem_filter_bne _ _

end OffChain

namespace OffChain

lemma cpiUnlock_pending (env : CpiEnv) (st : CoordState) (vid amount opId : Nat)
    (now : Int)
    (hp : ∀ p, (env.parse p).isSome = true) (hb : env.buildOk = true)
    (hc1 : env.create1Ok = true) (h0 : opId ∉ st.pending) :
    opId ∉ (cpiUnlockCollateral env st vid amount opId now).2.pending := by
  unfold cpiUnlockCollateral
  cases hg : getVaultById st.vaults vid with
  | error e => exact h0
  | ok vault =>
    dsimp only
    by_cases hins : vault.locked_balance < asI64 amount
    · rw [if_pos hins]; exact h0
    rw [if_neg hins, if_neg h0]
    have hps := hp vault.vault_pubkey
    cases hpe : env.parse vault.vault_pubkey with
    | none => rw [hpe] at hps; simp at hps
    | some k =>
      dsimp only
      rw [if_neg (not_not_intro hb), if_neg (not_not_intro hc1)]
      split
      · split
        · rename_i heq
          rw [vaultMgrUpdateBalances_pending heq]
          exact not_mem_filter_bne _ _
        · exact not_mem_filter_bne _ _
      · exact not_mem_filter_bne _ _

lemma cpiTransfer_pending (env : CpiEnv) (st : CoordState)
    (srcVid dstVid amount opId : Nat) (now : Int)
    (hp : ∀ p, (env.parse p).isSome = true) (hb : env.buildOk = true)
    (hc1 : env.create1Ok = true) (hc2 : env.create2Ok = true)
    (h0 : opId ∉ st.pending) :
    opId ∉ (cpiTransferCollateral env st srcVid dstVid amount opId now).2.pending := by
  unfold cpiTransferCollateral
  cases hg1 : getVaultById st.vaults srcVid with
  | error e => exact h0
  | ok src =>
    dsimp only
    cases hg2 : getVaultById st.vaults dstVid with
    | error e => exact h0
    | ok dst =>
      dsimp only
      by_cases hins : src.locked_balance < asI64 amount
      · rw [if_pos hins]; exact h0
      rw [if_neg hins, if_neg h0]
      have hps1 := hp src.vault_pubkey
      cases hpe1 : env.parse src.vault_pubkey with
      | none => rw [hpe1] at hps1; simp at hps1
      | some k1 =>
        dsimp only
        have hps2 := hp dst.vault_pubkey
        cases hpe2 : env.parse dst.vault_pubkey with
        | none => rw [hpe2] at hps2; simp at hps2
        | some k2 =>
          dsimp only
          rw [if_neg (not_not_intro hb), if_neg (not_not_intro hc1),
            if_neg (not_not_intro hc2)]
          split
          · split
            · exact not_mem_filter_bne _ _
            · rename_i st5 heq1
              split
              · rw [vaultMgrUpdateBalances_pending heq1]
                exact not_mem_filter_bne _ _
              · rename_i st6 heq2
                rw [vaultMgrUpdateBalances_pending heq2,
                  vaultMgrUpdateBalances_pending heq1]
                exact not_mem_filter_bne _ _
          · split
            · exact not_mem_filter_bne _ _
            · exact not_mem_filter_bne _ _

end OffChain

/-- Environment in which the pubkey parse succeeds but the transaction
builder fails. -/
def envBuildFail : OffChain.CpiEnv :=
  ⟨fun _ => some 0, false, true, true, .ok "sig", true, true, true, true⟩

/-- Environment in which every coordinator step succeeds. -/
def envAllOk : OffChain.CpiEnv :=
  ⟨fun _ => some 0, true, true, true, .ok "sig", true, true, true, true⟩

/-- Initial coordinator state holding the single vault row `exRow`. -/
def stOne : OffChain.CoordState := ⟨[exRow], [], []⟩

/-- Claim C4 counterexample: a `lock_collateral` call that inserted operation
id 99 into the pending set and then failed at the transaction-build step
returns with the entry STILL in the set — the `?`-return skips the removal. -/
theorem C4_pending_entry_leaks_on_build_failure :
    (OffChain.cpiLockCollateral envBuildFail stOne 1 10 99 5).1 =
      .error .transactionFailed ∧
    99 ∈ (OffChain.cpiLockCollateral envBuildFail stOne 1 10 99 5).2.pending := by
  constructor
  · rfl
  · decide

/-- Claim C4 (amended): the coordinator removes the pending-operation entry
before returning only on runs that reach the submission step — i.e. when the
stored pubkey(s) parse, the build succeeds and the transaction-record
creation(s) succeed; on those runs the entry is absent from the set on every
success and every failure outcome.  Failure paths between the insertion and
the submission (unparseable stored vault pubkey, build failure,
record-creation failure) return with the entry still present, until the
five-minute expiry cleanup drops it. -/
theorem C4_pending_entry_removed_when_submission_reached
    (env : OffChain.CpiEnv) (st : OffChain.CoordState)
    (vid vid2 amount opId : Nat) (now : Int)
    (hp : ∀ p, (env.parse p).isSome = true) (hb : env.buildOk = true)
    (hc1 : env.create1Ok = true) (hc2 : env.create2Ok = true)
    (h0 : opId ∉ st.pending) :
    opId ∉ (OffChain.cpiLockCollateral env st vid amount opId now).2.pending ∧
    opId ∉ (OffChain.cpiUnlockCollateral env st vid amount opId now).2.pending ∧
    opId ∉ (OffChain.cpiTransferCollateral env st vid vid2 amount opId now).2.pending :=
  ⟨OffChain.cpiLock_pending env st vid amount opId now hp hb hc1 h0,
   OffChain.cpiUnlock_pending env st vid amount opId now hp hb hc1 h0,
   OffChain.cpiTransfer_pending env st vid vid2 amount opId now hp hb hc1 hc2 h0⟩

/-- Witness for C4: in the all-success environment on the single-vault state,
operation id 99 is absent from the pending set after each of the three calls. -/
theorem C4_pending_entry_removed_witness :
    99 ∉ (OffChain.cpiLockCollateral envAllOk stOne 1 10 99 5).2.pending ∧
    99 ∉ (OffChain.cpiUnlockCollateral envAllOk stOne 1 10 99 5).2.pending ∧
    99 ∉ (OffChain.cpiTransferCollateral envAllOk stOne 1 1 10 99 5).2.pending :=
  C4_pending_entry_removed_when_submission_reached envAllOk stOne 1 1 10 99 5
    (fun p => rfl) rfl rfl rfl (by decide)

namespace OnChain

lemma deposit_zero (v : Vault) (s : Nat) (t : Int) : deposit v 0 s t = none := by
  unfold deposit
  split_ifs <;> first | rfl | omega

lemma withdraw_zero (v : Vault) (s : Nat) (t : Int) : withdraw v 0 s t = none := by
  unfold withdraw
  split_ifs <;> first | rfl | omega

lemma lock_zero (v : Vault) (s : Nat) (t : Int) : lockCollateral v 0 s t = none := by
  unfold lockCollateral
  split_ifs <;> first | rfl | omega

lemma unlock_zero (v : Vault) (s : Nat) (t : Int) : unlockCollateral v 0 s t = none := by
  unfold unlockCollateral
  split_ifs <;> first | rfl | omega

lemma transfer_zero (a b : Vault) (s : Nat) (t : Int) :
    transferCollateral a b 0 s t = none := by
  unfold transferCollateral
  split_ifs <;> first | rfl | omega

end OnChain

namespace OffChain

lemma asI64_zero : asI64 0 = 0 := by decide

lemma updateTxStatus_length (db : List TxRecord) (rid : Nat) (s : String)
    (e : Option String) (now : Int) :
    (updateTxStatus db rid s e now).length = db.length := by
  simp [updateTxStatus]

lemma getVaultById_map_ok {vs : List Vault} {vid : Nat} {vault : Vault}
    (f : Vault → Vault) (hf : ∀ v, (f v).id = v.id)
    (h : getVaultById vs vid = .ok vault) :
    getVaultById (vs.map f) vid = .ok (f vault) := by
  unfold getVaultById at *
  rw [List.find?_map]
  have hcomp : ((fun v => v.id == vid) ∘ f) = (fun v => v.id == vid) := by
    funext v
    simp [Function.comp, hf]
  rw [hcomp]
  revert h
  cases vs.find? (fun v => v.id == vid) with
  | none => intro h; exact Except.noConfusion h
  | some w =>
    intro h
    injection h with h'
    subst h'
    rfl

lemma getVaultById_map_update {vs : List Vault} {vid : Nat} {vault : Vault}
    (t l a now : Int)
    (h : getVaultById vs vid = .ok vault) :
    getVaultById (vs.map fun v =>
        if v.id == vid then
          { v with total_balance := t, locked_balance := l, available_balance := a,
                   updated_at := now }
        else v) vid =
      .ok (if vault.id == vid then
        { vault with total_balance := t, locked_balance := l, available_balance := a,
                     updated_at := now }
      else vault) :=
  getVaultById_map_ok _ (fun v => by split <;> rfl) h

lemma cpiLock_zero_ok (env : CpiEnv) (st : CoordState) (vid opId : Nat) (now : Int)
    (vault : Vault) (sig : String)
    (hg : getVaultById st.vaults vid = .ok vault)
    (hav : 0 ≤ vault.available_balance)
    (hinv : vault.total_balance = vault.locked_balance + vault.available_balance)
    (hp : ∀ p, (env.parse p).isSome = true) (hb : env.buildOk = true)
    (hc1 : env.create1Ok = true) (hsub : env.submit = .ok sig)
    (hcf : env.confirmOk = true) (ha1 : env.applyOk = true)
    (h0 : opId ∉ st.pending) :
    (cpiLockCollateral env st vid 0 opId now).1 = .ok sig ∧
    (cpiLockCollateral env st vid 0 opId now).2.txdb.length = st.txdb.length + 1 := by
  unfold cpiLockCollateral
  rw [hg]
  dsimp only
  rw [asI64_zero, if_neg (by omega : ¬ vault.available_balance < (0 : Int)), if_neg h0]
  have hps := hp vault.vault_pubkey
  cases hpe : env.parse vault.vault_pubkey with
  | none => rw [hpe] at hps; simp at hps
  | some k =>
    dsimp only
    rw [if_neg (not_not_intro hb), if_neg (not_not_intro hc1)]
    unfold submitAndConfirm
    rw [hsub]
    dsimp only
    rw [if_pos hcf]
    dsimp only
    unfold vaultMgrUpdateBalances
    dsimp only
    rw [hg]
    dsimp only
    rw [if_neg (by omega :
      ¬ vault.total_balance ≠ vault.locked_balance + 0 + (vault.available_balance - 0))]
    rw [if_pos ha1]
    refine ⟨rfl, ?_⟩
    dsimp only
    simp [updateTxStatus_length]

end OffChain

namespace OffChain

lemma cpiUnlock_zero_ok (env : CpiEnv) (st : CoordState) (vid opId : Nat) (now : Int)
    (vault : Vault) (sig : String)
    (hg : getVaultById st.vaults vid = .ok vault)
    (hlk : 0 ≤ vault.locked_balance)
    (hinv : vault.total_balance = vault.locked_balance + vault.available_balance)
    (hp : ∀ p, (env.parse p).isSome = true) (hb : env.buildOk = true)
    (hc1 : env.create1Ok = true) (hsub : env.submit = .ok sig)
    (hcf : env.confirmOk = true) (ha1 : env.applyOk = true)
    (h0 : opId ∉ st.pending) :
    (cpiUnlockCollateral env st vid 0 opId now).1 = .ok sig ∧
    (cpiUnlockCollateral env st vid 0 opId now).2.txdb.length = st.txdb.length + 1 := by
  unfold cpiUnlockCollateral
  rw [hg]
  dsimp only
  rw [asI64_zero, if_neg (by omega : ¬ vault.locked_balance < (0 : Int)), if_neg h0]
  have hps := hp vault.vault_pubkey
  cases hpe : env.parse vault.vault_pubkey with
  | none => rw [hpe] at hps; simp at hps
  | some k =>
    dsimp only
    rw [if_neg (not_not_intro hb), if_neg (not_not_intro hc1)]
    unfold submitAndConfirm
    rw [hsub]
    dsimp only
    rw [if_pos hcf]
    dsimp only
    unfold vaultMgrUpdateBalances
    dsimp only
    rw [hg]
    dsimp only
    rw [if_neg (by omega :
      ¬ vault.total_balance ≠ vault.locked_balance - 0 + (vault.available_balance + 0))]
    rw [if_pos ha1]
    refine ⟨rfl, ?_⟩
    dsimp only
    simp [updateTxStatus_length]

lemma cpiTransfer_zero_ok (env : CpiEnv) (st : CoordState) (vid opId : Nat) (now : Int)
    (vault : Vault) (sig : String)
    (hg : getVaultById st.vaults vid = .ok vault)
    (hlk : 0 ≤ vault.locked_balance)
    (hinv : vault.total_balance = vault.locked_balance + vault.available_balance)
    (hp : ∀ p, (env.parse p).isSome = true) (hb : env.buildOk = true)
    (hc1 : env.create1Ok = true) (hc2 : env.create2Ok = true)
    (hsub : env.submit = .ok sig) (hcf : env.confirmOk = true)
    (ha1 : env.applyOk = true) (ha2 : env.apply2Ok = true)
    (h0 : opId ∉ st.pending) :
    (cpiTransferCollateral env st vid vid 0 opId now).1 = .ok sig ∧
    (cpiTransferCollateral env st vid vid 0 opId now).2.txdb.length =
      st.txdb.length + 2 := by
  unfold cpiTransferCollateral
  rw [hg]
  dsimp only
  rw [asI64_zero, if_neg (by omega : ¬ vault.locked_balance < (0 : Int)), if_neg h0]
  have hps := hp vault.vault_pubkey
  cases hpe : env.parse vault.vault_pubkey with
  | none => rw [hpe] at hps; simp at hps
  | some k =>
    dsimp only
    rw [if_neg (not_not_intro hb), if_neg (not_not_intro hc1),
      if_neg (not_not_intro hc2)]
    unfold submitAndConfirm
    rw [hsub]
    dsimp only
    rw [if_pos hcf]
    dsimp only
    unfold vaultMgrUpdateBalances
    dsimp only
    rw [hg]
    dsimp only
    rw [if_neg (by omega :
      ¬ vault.total_balance - 0 ≠ vault.locked_balance - 0 + vault.available_balance)]
    rw [if_pos ha1]
    dsimp only
    rw [getVaultById_map_update _ _ _ _ hg]
    dsimp only
    rw [if_neg (by omega :
      ¬ vault.total_balance + 0 ≠ vault.locked_balance + (vault.available_balance + 0))]
    rw [if_pos ha2]
    refine ⟨rfl, ?_⟩
    dsimp only
    simp [updateTxStatus_length]

end OffChain

/-- Claim C6 counterexample: a zero-amount `lock_collateral` through the
coordinator is NOT rejected — with every environment step succeeding it
returns success and has created a transaction record, because the
coordinator's only amount check is the balance pre-check, which 0 passes. -/
theorem C6_zero_lock_accepted_by_coordinator :
    (OffChain.cpiLockCollateral envAllOk stOne 1 0 99 5).1 = .ok "sig" ∧
    (OffChain.cpiLockCollateral envAllOk stOne 1 0 99 5).2.txdb ≠ [] := by
  constructor
  · rfl
  · decide

/-- Claim C6 (amended): only the on-chain layer rejects `amount = 0` — every
on-chain instruction returns `InvalidAmount` and changes nothing at amount
zero — while the off-chain coordinator performs no zero-amount validation at
all: a zero-amount lock, unlock or transfer passes the balance pre-check
whenever the relevant balance is non-negative, runs to completion when the
environment steps succeed, and appends transaction records (one for
lock/unlock, two for transfer). -/
theorem C6_zero_amount_rejected_on_chain_only
    (env : OffChain.CpiEnv) (st : OffChain.CoordState) (vid opId : Nat) (now : Int)
    (vault : OffChain.Vault) (sig : String)
    (hg : OffChain.getVaultById st.vaults vid = .ok vault)
    (hav : 0 ≤ vault.available_balance) (hlk : 0 ≤ vault.locked_balance)
    (hinv : vault.total_balance = vault.locked_balance + vault.available_balance)
    (hp : ∀ p, (env.parse p).isSome = true) (hb : env.buildOk = true)
    (hc1 : env.create1Ok = true) (hc2 : env.create2Ok = true)
    (hsub : env.submit = .ok sig) (hcf : env.confirmOk = true)
    (ha1 : env.applyOk = true) (ha2 : env.apply2Ok = true)
    (h0 : opId ∉ st.pending) :
    (∀ v s t, OnChain.deposit v 0 s t = none) ∧
    (∀ v s t, OnChain.withdraw v 0 s t = none) ∧
    (∀ v s t, OnChain.lockCollateral v 0 s t = none) ∧
    (∀ v s t, OnChain.unlockCollateral v 0 s t = none) ∧
    (∀ a b s t, OnChain.transferCollateral a b 0 s t = none) ∧
    ((OffChain.cpiLockCollateral env st vid 0 opId now).1 = .ok sig ∧
      (OffChain.cpiLockCollateral env st vid 0 opId now).2.txdb.length =
        st.txdb.length + 1) ∧
    ((OffChain.cpiUnlockCollateral env st vid 0 opId now).1 = .ok sig ∧
      (OffChain.cpiUnlockCollateral env st vid 0 opId now).2.txdb.length =
        st.txdb.length + 1) ∧
    ((OffChain.cpiTransferCollateral env st vid vid 0 opId now).1 = .ok sig ∧
      (OffChain.cpiTransferCollateral env st vid vid 0 opId now).2.txdb.length =
        st.txdb.length + 2) :=
  ⟨OnChain.deposit_zero, OnChain.withdraw_zero, OnChain.lock_zero, OnChain.unlock_zero,
   OnChain.transfer_zero,
   OffChain.cpiLock_zero_ok env st vid opId now vault sig hg hav hinv hp hb hc1 hsub
     hcf ha1 h0,
   OffChain.cpiUnlock_zero_ok env st vid opId now vault sig hg hlk hinv hp hb hc1 hsub
     hcf ha1 h0,
   OffChain.cpiTransfer_zero_ok env st vid opId now vault sig hg hlk hinv hp hb hc1 hc2
     hsub hcf ha1 ha2 h0⟩

/-- Witness for C6: each on-chain operation rejects amount 0 on the example
vault, while the coordinator's three entry points at amount 0 all return
success in the all-success environment. -/
theorem C6_zero_amount_witness :
    OnChain.deposit exV 0 1 1 = none ∧
    OnChain.withdraw exV 0 1 1 = none ∧
    OnChain.lockCollateral exV 0 7 1 = none ∧
    OnChain.unlockCollateral exV 0 7 1 = none ∧
    OnChain.transferCollateral exV exV 0 7 1 = none ∧
    (OffChain.cpiLockCollateral envAllOk stOne 1 0 99 5).1 = .ok "sig" ∧
    (OffChain.cpiUnlockCollateral envAllOk stOne 1 0 99 5).1 = .ok "sig" ∧
    (OffChain.cpiTransferCollateral envAllOk stOne 1 1 0 99 5).1 = .ok "sig" :=
  have h := C6_zero_amount_rejected_on_chain_only envAllOk stOne 1 99 5 exRow "sig"
    rfl (by decide) (by decide) (by decide) (fun p => rfl) rfl rfl rfl rfl rfl rfl rfl
    (by decide)
  ⟨h.1 exV 1 1, h.2.1 exV 1 1, h.2.2.1 exV 7 1, h.2.2.2.1 exV 7 1,
   h.2.2.2.2.1 exV exV 7 1, h.2.2.2.2.2.1.1, h.2.2.2.2.2.2.1.1, h.2.2.2.2.2.2.2.1⟩
